import Mathlib

/-!
Shallow embedding of the voice-activity-gated audio chunking pipeline of
page-puppet (`pagician-extension/lib/audio-capture.js`, VAD variant, and the
controller guards in `pagician-extension/content-script.js`).

Times are modelled as integers (milliseconds, `Date.now()`), RMS loudness as
rationals.  JavaScript `null` timestamps become `Option Int`; JS arithmetic
coerces `null` to `0` (`jsVal`) and the truthiness test `x && _` fails on both
`null` and `0` (`truthyTime`).  The `MediaRecorder` is modelled by a presence
flag and its `state === 'recording'` bit; `stop()` turns the state inactive
synchronously and queues one asynchronous completion (`onstop`) event, counted
in `pendingStops`.  Segment delivery through the caller-supplied callback is
recorded as a count of invocations.
-/

namespace PagePuppet

inductive VoiceState
  | SILENT
  | SPEAKING
  | TRAILING_SILENCE
deriving DecidableEq, Repr

/-- The VAD tuning constants set in the `AudioCapture` constructor. -/
structure VadConfig where
  SILENCE_THRESHOLD : ℚ
  TRAILING_SILENCE_MS : ℤ
  MAX_CHUNK_DURATION_MS : ℤ
  MIN_CHUNK_DURATION_MS : ℤ
  VAD_POLL_INTERVAL_MS : ℤ
deriving DecidableEq, Repr

/-- The constants of the source: threshold 0.01, trailing silence 1500 ms,
max chunk 15000 ms, min chunk 500 ms, poll interval 50 ms. -/
def defaultConfig : VadConfig :=
  { SILENCE_THRESHOLD := mkRat 1 100
    TRAILING_SILENCE_MS := 1500
    MAX_CHUNK_DURATION_MS := 15000
    MIN_CHUNK_DURATION_MS := 500
    VAD_POLL_INTERVAL_MS := 50 }

/-- The mutable fields of `AudioCapture` relevant to the VAD pipeline. -/
structure Capture where
  streamingMode : Bool
  suppressNextBlob : Bool
  /-- `processCallback !== null` (the caller-supplied segment callback). -/
  processCallbackSet : Bool
  /-- `mediaRecorder !== null`. -/
  recorderPresent : Bool
  /-- `mediaRecorder.state === 'recording'`. -/
  recorderRecording : Bool
  isRecording : Bool
  /-- `analyserNode !== null` (conflating the audio context with its analyser). -/
  analyserPresent : Bool
  /-- `vadInterval !== null` (the poll timer handle). -/
  vadIntervalSet : Bool
  voiceState : VoiceState
  silenceStartTime : Option ℤ
  recordingStartTime : Option ℤ
  /-- number of buffered encoded fragments (`audioChunks.length`). -/
  audioChunks : ℕ
  /-- queued, not yet dispatched `onstop` completion events. -/
  pendingStops : ℕ
deriving DecidableEq, Repr

/-- State after the constructor and a successful `initializeRecording()`:
recorder present and inactive, streaming off, no analyser, no timer. -/
def initCapture : Capture :=
  { streamingMode := false
    suppressNextBlob := false
    processCallbackSet := false
    recorderPresent := true
    recorderRecording := false
    isRecording := false
    analyserPresent := false
    vadIntervalSet := false
    voiceState := .SILENT
    silenceStartTime := none
    recordingStartTime := none
    audioChunks := 0
    pendingStops := 0 }

/-- JS arithmetic on a possibly-`null` timestamp: `Number(null) = 0`. -/
def jsVal (o : Option ℤ) : ℤ := o.getD 0

/-- JS truthiness of a numeric-or-`null` field: `null` and `0` are falsy. -/
def truthyTime : Option ℤ → Bool
  | none => false
  | some t => t != 0

/-- `startRecording()`: if the recorder exists and is not recording, clear the
fragment buffer and start it; otherwise log and do nothing. -/
def startRecording (s : Capture) : Capture :=
  if s.recorderPresent && !s.recorderRecording then
    { s with audioChunks := 0, recorderRecording := true, isRecording := true }
  else s

/-- `stopRecording()`: if recording, issue `mediaRecorder.stop()` (state becomes
inactive synchronously and one `onstop` completion is queued); else nothing. -/
def stopRecording (s : Capture) : Capture :=
  if s.recorderPresent && s.recorderRecording then
    { s with recorderRecording := false, isRecording := false,
             pendingStops := s.pendingStops + 1 }
  else s

/-- `sendCurrentChunk()`: stop the recorder if it is recording, then reset the
voice state and both timestamps. -/
def sendCurrentChunk (s : Capture) : Capture :=
  let s1 :=
    if s.recorderPresent && s.recorderRecording then
      { s with recorderRecording := false, isRecording := false,
               pendingStops := s.pendingStops + 1 }
    else s
  { s1 with voiceState := .SILENT, silenceStartTime := none,
            recordingStartTime := none }

/-- `discardCurrentChunk()`: set `suppressNextBlob` first, then stop the
recorder if it is recording, then reset voice state and timestamps. -/
def discardCurrentChunk (s : Capture) : Capture :=
  let s0 := { s with suppressNextBlob := true }
  let s1 :=
    if s0.recorderPresent && s0.recorderRecording then
      { s0 with recorderRecording := false, isRecording := false,
                pendingStops := s0.pendingStops + 1 }
    else s0
  { s1 with voiceState := .SILENT, silenceStartTime := none,
            recordingStartTime := none }

/-- The `mediaRecorder.onstop` handler: assemble the buffered fragments into a
blob; if `suppressNextBlob` is set, clear it and skip delivery, else invoke the
callback if one is set; always clear the fragment buffer.  Returns the new
state and whether the callback was invoked. -/
def onstop (s : Capture) : Capture × Bool :=
  if s.suppressNextBlob then
    ({ s with suppressNextBlob := false, audioChunks := 0 }, false)
  else if s.processCallbackSet then
    ({ s with audioChunks := 0 }, true)
  else
    ({ s with audioChunks := 0 }, false)

/-- The `mediaRecorder.onerror` handler of the source: it only logs the event
and changes no state. -/
def onerror (s : Capture) : Capture := s

/-- `vadLoop()`: entry guard, RMS sampling (the loudness is an input here),
speech classification `rms >= SILENCE_THRESHOLD`, and the three-state machine. -/
def vadLoop (cfg : VadConfig) (rms : ℚ) (now : ℤ) (s : Capture) : Capture :=
  if !s.streamingMode || !s.analyserPresent then s
  else
    let isSpeech : Bool := decide (rms ≥ cfg.SILENCE_THRESHOLD)
    match s.voiceState with
    | .SILENT =>
        if isSpeech then
          let s1 := startRecording { s with voiceState := .SPEAKING }
          { s1 with recordingStartTime := some now }
        else s
    | .SPEAKING =>
        if !isSpeech then
          { s with voiceState := .TRAILING_SILENCE, silenceStartTime := some now }
        else if truthyTime s.recordingStartTime &&
            decide (now - jsVal s.recordingStartTime ≥ cfg.MAX_CHUNK_DURATION_MS) then
          sendCurrentChunk s
        else s
    | .TRAILING_SILENCE =>
        if isSpeech then
          { s with voiceState := .SPEAKING, silenceStartTime := none }
        else if now - jsVal s.silenceStartTime ≥ cfg.TRAILING_SILENCE_MS then
          let chunkDuration := now - jsVal s.recordingStartTime
          if chunkDuration ≥ cfg.MIN_CHUNK_DURATION_MS then
            sendCurrentChunk s
          else
            discardCurrentChunk s
        else if truthyTime s.recordingStartTime &&
            decide (now - jsVal s.recordingStartTime ≥ cfg.MAX_CHUNK_DURATION_MS) then
          sendCurrentChunk s
        else s

/-- `AudioCapture.startStreamingMode(processCallback)`: set streaming mode,
install the callback, reset the machine, build the analysis graph and start
the poll timer. -/
def startStreamingMode (s : Capture) : Capture :=
  { s with streamingMode := true
           processCallbackSet := true
           voiceState := .SILENT
           silenceStartTime := none
           recordingStartTime := none
           analyserPresent := true
           vadIntervalSet := true }

/-- `AudioCapture.stopStreamingMode()`: clear streaming mode, cancel the poll
timer, release the analysis graph, stop any in-progress recording (via
`stopRecording()`, which queues a completion but does not suppress it), and
reset the machine. -/
def stopStreamingMode (s : Capture) : Capture :=
  let s1 := { s with streamingMode := false }
  let s2 := if s1.vadIntervalSet then { s1 with vadIntervalSet := false } else s1
  let s3 := if s2.analyserPresent then { s2 with analyserPresent := false } else s2
  let s4 := stopRecording s3
  { s4 with voiceState := .SILENT, silenceStartTime := none,
            recordingStartTime := none }

/-- Events dispatched on the single-threaded task queue: poll ticks (with the
sampled loudness and clock reading), delivery of one queued encoder completion,
an encoder error event, direct cut commands, and session start/stop. -/
inductive Ev
  | tick (rms : ℚ) (now : ℤ)
  | complete
  | errorEvent
  | sendCut
  | discardCut
  | startStream
  | stopStream
deriving DecidableEq, Repr

/-- Dispatch one event; the second component counts callback invocations (0 or
1) caused by the event.  A `complete` event fires only if a stop completion is
actually queued. -/
def execEvent (cfg : VadConfig) (s : Capture) : Ev → Capture × ℕ
  | .tick rms now => (vadLoop cfg rms now s, 0)
  | .complete =>
      if s.pendingStops = 0 then (s, 0)
      else
        let r := onstop s
        ({ r.1 with pendingStops := s.pendingStops - 1 }, if r.2 then 1 else 0)
  | .errorEvent => (onerror s, 0)
  | .sendCut => (sendCurrentChunk s, 0)
  | .discardCut => (discardCurrentChunk s, 0)
  | .startStream => (startStreamingMode s, 0)
  | .stopStream => (stopStreamingMode s, 0)

/-- Run a list of events, accumulating the number of callback invocations. -/
def run (cfg : VadConfig) (s : Capture) : List Ev → Capture × ℕ
  | [] => (s, 0)
  | e :: es =>
      let r := execEvent cfg s e
      let r2 := run cfg r.1 es
      (r2.1, r.2 + r2.2)

/-- `getCurrentRMS()`: root mean square of the analyser's time-domain buffer,
`Math.sqrt(sum / dataArray.length)` with `sum += dataArray[i] * dataArray[i]`.
Sample values are modelled as reals. -/
noncomputable def getCurrentRMS (buf : List ℝ) : ℝ :=
  Real.sqrt (((buf.map fun x => x * x).sum) / (buf.length : ℝ))

/- ---- Controller layer (`content-script.js`) ---- -/

/-- The controller fields of `VoiceDOMController` relevant to session
lifecycle. -/
structure Controller where
  isStreamingMode : Bool
  detectorActive : Bool
  storedVoiceActive : Bool
  capture : Capture
deriving DecidableEq, Repr

/-- `startStreamingMode()` of the content script: no-op if already streaming,
then the `canMakeRequest`, API-key and permission guards, then activation. -/
def ctrlStart (canMakeRequest apiKeySet permissionGranted : Bool)
    (c : Controller) : Controller :=
  if c.isStreamingMode then c
  else if !canMakeRequest then c
  else if !apiKeySet then c
  else if !permissionGranted then c
  else
    { c with isStreamingMode := true
             detectorActive := true
             capture := startStreamingMode c.capture
             storedVoiceActive := true }

/-- `stopStreamingMode()` of the content script: no-op if not streaming, else
deactivation. -/
def ctrlStop (c : Controller) : Controller :=
  if !c.isStreamingMode then c
  else
    { c with isStreamingMode := false
             detectorActive := false
             capture := stopStreamingMode c.capture
             storedVoiceActive := false }

/- ---- State predicates ---- -/

/-- The timestamp/voice-state coupling: `silenceStartTime` is set exactly in
`TRAILING_SILENCE`, and `recordingStartTime` is set whenever not `SILENT`. -/
def timesInv (s : Capture) : Prop :=
  (s.silenceStartTime ≠ none ↔ s.voiceState = .TRAILING_SILENCE) ∧
  (s.voiceState ≠ .SILENT → s.recordingStartTime ≠ none)

/-- A fully torn-down session: streaming off, analysis graph released, recorder
inactive, and no queued completion events. -/
def postStopQuiescent (s : Capture) : Prop :=
  s.streamingMode = false ∧ s.analyserPresent = false ∧
  s.recorderRecording = false ∧ s.pendingStops = 0

instance : DecidablePred postStopQuiescent := fun s => by
  unfold postStopQuiescent; infer_instance

/- ---- Concrete traces ---- -/

/-- Spec scenario A loudness: silence for ticks 1-3, speech (RMS 0.05) for
ticks 4-6, silence thereafter. -/
def scenarioARms (n : ℕ) : ℚ :=
  if n ≤ 3 then 0 else if n ≤ 6 then mkRat 5 100 else 0

/-- Scenario A: start streaming, then `n` poll ticks, tick `n` at `now = n*50`. -/
def scenarioATrace (n : ℕ) : List Ev :=
  [Ev.startStream] ++
    ((List.range n).map fun i => Ev.tick (scenarioARms (i + 1)) (((i : ℤ) + 1) * 50))

/-- Spec scenario B loudness: speech only at tick 1, silence thereafter. -/
def scenarioBRms (n : ℕ) : ℚ := if n = 1 then mkRat 5 100 else 0

/-- Scenario B: start streaming, then `n` poll ticks at `now = n*50`. -/
def scenarioBTrace (n : ℕ) : List Ev :=
  [Ev.startStream] ++
    ((List.range n).map fun i => Ev.tick (scenarioBRms (i + 1)) (((i : ℤ) + 1) * 50))

/-- Loudness alternating every tick: speech on odd ticks, silence on even. -/
def altRms (n : ℕ) : ℚ := if n % 2 = 1 then mkRat 5 100 else 0

/-- Alternating trace: start streaming, then `n` ticks at `now = n*50`. -/
def altTrace (n : ℕ) : List Ev :=
  [Ev.startStream] ++
    ((List.range n).map fun i => Ev.tick (altRms (i + 1)) (((i : ℤ) + 1) * 50))

/-- The state the alternating trace revisits after every odd tick: a recording
opened at `now = 50`, voice state `SPEAKING`. -/
def altSpeakState : Capture :=
  { streamingMode := true
    suppressNextBlob := false
    processCallbackSet := true
    recorderPresent := true
    recorderRecording := true
    isRecording := true
    analyserPresent := true
    vadIntervalSet := true
    voiceState := .SPEAKING
    silenceStartTime := none
    recordingStartTime := some 50
    audioChunks := 0
    pendingStops := 0 }

/-- A mid-session state with a recording in progress, used to instantiate the
cut-delivery theorems. -/
def cutTestState : Capture :=
  { streamingMode := true
    suppressNextBlob := false
    processCallbackSet := true
    recorderPresent := true
    recorderRecording := true
    isRecording := true
    analyserPresent := true
    vadIntervalSet := true
    voiceState := .SPEAKING
    silenceStartTime := none
    recordingStartTime := some 200
    audioChunks := 3
    pendingStops := 0 }

/-- A mid-session `TRAILING_SILENCE` state (silence began at 350 ms on a
recording opened at 200 ms), used to instantiate the trailing-cut theorem. -/
def trailTestState : Capture :=
  { streamingMode := true
    suppressNextBlob := false
    processCallbackSet := true
    recorderPresent := true
    recorderRecording := true
    isRecording := true
    analyserPresent := true
    vadIntervalSet := true
    voiceState := .TRAILING_SILENCE
    silenceStartTime := some 350
    recordingStartTime := some 200
    audioChunks := 5
    pendingStops := 0 }

/-- A controller with an active streaming session. -/
def ctrlActive : Controller :=
  { isStreamingMode := true
    detectorActive := true
    storedVoiceActive := true
    capture := startStreamingMode initCapture }

/-- A controller with no active streaming session. -/
def ctrlInactive : Controller :=
  { isStreamingMode := false
    detectorActive := false
    storedVoiceActive := false
    capture := initCapture }

/- ================= Theorems ================= -/

theorem run_append (cfg : VadConfig) (s : Capture) (l1 l2 : List Ev) :
    run cfg s (l1 ++ l2) =
      ((run cfg (run cfg s l1).1 l2).1,
        (run cfg s l1).2 + (run cfg (run cfg s l1).1 l2).2) := by
  induction l1 generalizing s with
  | nil => simp [run]
  | cons e es ih => simp [run, ih, Nat.add_assoc]

theorem stopStreamingMode_fields (s : Capture) :
    (stopStreamingMode s).streamingMode = false ∧
    (stopStreamingMode s).analyserPresent = false ∧
    (s.recorderPresent = true → (stopStreamingMode s).recorderRecording = false) ∧
    (stopStreamingMode s).suppressNextBlob = s.suppressNextBlob ∧
    (stopStreamingMode s).processCallbackSet = s.processCallbackSet ∧
    (stopStreamingMode s).voiceState = .SILENT ∧
    (stopStreamingMode s).silenceStartTime = none ∧
    (stopStreamingMode s).recordingStartTime = none := by
  cases hv : s.vadIntervalSet <;> cases hap : s.analyserPresent <;>
    cases hp : s.recorderPresent <;> cases hr : s.recorderRecording <;>
      simp [stopStreamingMode, stopRecording, hv, hap, hp, hr]

/-- C7: `startStreamingMode` while a session is already active and
`stopStreamingMode` while none is active both leave the controller state
(including the wrapped `AudioCapture`) unchanged. -/
theorem controller_start_stop_idempotent (c : Controller) (cr ak pg : Bool) :
    (c.isStreamingMode = true → ctrlStart cr ak pg c = c) ∧
    (c.isStreamingMode = false → ctrlStop c = c) := by
  constructor
  · intro h; simp [ctrlStart, h]
  · intro h; simp [ctrlStop, h]

theorem controller_start_stop_idempotent_witness :
    (ctrlActive.isStreamingMode = true ∧
      ctrlStart true true true ctrlActive = ctrlActive) ∧
    (ctrlInactive.isStreamingMode = false ∧ ctrlStop ctrlInactive = ctrlInactive) :=
  ⟨⟨rfl, (controller_start_stop_idempotent ctrlActive true true true).1 rfl⟩,
   ⟨rfl, (controller_start_stop_idempotent ctrlInactive true true true).2 rfl⟩⟩

theorem vadLoop_guard (cfg : VadConfig) (rms : ℚ) (now : ℤ) (t : Capture)
    (ht : t.streamingMode = false ∨ t.analyserPresent = false) :
    vadLoop cfg rms now t = t := by
  unfold vadLoop
  rcases ht with h | h <;> simp [h]

/-- C10: any `vadLoop` invocation with streaming mode off or the analyser
released is a complete no-op on the state; in particular a stale tick after
`stopStreamingMode`, or one before streaming ever started, changes nothing. -/
theorem vadLoop_noop_after_teardown (cfg : VadConfig) (rms : ℚ) (now : ℤ)
    (s : Capture) :
    ((s.streamingMode = false ∨ s.analyserPresent = false) →
      vadLoop cfg rms now s = s) ∧
    vadLoop cfg rms now (stopStreamingMode s) = stopStreamingMode s ∧
    vadLoop cfg rms now initCapture = initCapture :=
  ⟨vadLoop_guard cfg rms now s,
   vadLoop_guard cfg rms now _ (Or.inl (stopStreamingMode_fields s).1),
   vadLoop_guard cfg rms now _ (Or.inl rfl)⟩

theorem vadLoop_noop_after_teardown_witness :
    (initCapture.streamingMode = false ∨ initCapture.analyserPresent = false) ∧
    vadLoop defaultConfig (mkRat 5 100) 12345 initCapture = initCapture :=
  ⟨Or.inl rfl,
   (vadLoop_noop_after_teardown defaultConfig (mkRat 5 100) 12345
      initCapture).1 (Or.inl rfl)⟩

/-- C5 counterexample: the `onerror` handler only logs — applied to an
in-session `SPEAKING` state it changes nothing, so the voice state does *not*
reset to `SILENT` at the error event. -/
theorem onerror_leaves_speaking :
    (run defaultConfig initCapture
        [.startStream, .tick (mkRat 5 100) 50, .errorEvent]).1.voiceState =
      .SPEAKING ∧
    VoiceState.SPEAKING ≠ VoiceState.SILENT ∧
    (run defaultConfig initCapture
        [.startStream, .tick (mkRat 5 100) 50, .errorEvent]).1 =
      (run defaultConfig initCapture [.startStream, .tick (mkRat 5 100) 50]).1 := by
  decide

/-- C5 (amended): a mid-session encoder error event is non-fatal and delivers
nothing, but the handler performs no state change at all: the voice state is
not reset, the poll timer and streaming flags are untouched, and control
returns normally (no exception). -/
theorem onerror_no_state_change (cfg : VadConfig) (s : Capture) :
    execEvent cfg s .errorEvent = (s, 0) := rfl

/-- C1: for a cut taken with a live recording, a clear suppression flag and the
callback installed, an emit (`sendCurrentChunk`) queues exactly one completion
whose dispatch invokes the callback exactly once, while a discard
(`discardCurrentChunk`) raises the suppression flag before the stop, so the
completion skips the callback and clears the flag; either way the single
queued completion is consumed, so each cut causes at most one invocation. -/
theorem cut_delivery_iff_emit (cfg : VadConfig) (s : Capture)
    (hp : s.recorderPresent = true) (hr : s.recorderRecording = true)
    (hcb : s.processCallbackSet = true) (hf : s.suppressNextBlob = false) :
    (sendCurrentChunk s).pendingStops = s.pendingStops + 1 ∧
    (execEvent cfg (sendCurrentChunk s) .complete).2 = 1 ∧
    (execEvent cfg (sendCurrentChunk s) .complete).1.pendingStops =
      s.pendingStops ∧
    (execEvent cfg (sendCurrentChunk s) .complete).1.suppressNextBlob = false ∧
    (discardCurrentChunk s).suppressNextBlob = true ∧
    (discardCurrentChunk s).pendingStops = s.pendingStops + 1 ∧
    (execEvent cfg (discardCurrentChunk s) .complete).2 = 0 ∧
    (execEvent cfg (discardCurrentChunk s) .complete).1.suppressNextBlob =
      false := by
  simp [sendCurrentChunk, discardCurrentChunk, execEvent, onstop, hp, hr, hcb, hf]

/-- C2 counterexample: with a recording in progress, `stopStreamingMode`
stops the recorder *without* the suppression flag, so the completion event
still pending after stop invokes the segment callback once: the partial
segment is delivered, not discarded. -/
theorem stop_pending_completion_delivers :
    (run defaultConfig initCapture
        [.startStream, .tick (mkRat 5 100) 50, .stopStream]).2 = 0 ∧
    (run defaultConfig initCapture
        [.startStream, .tick (mkRat 5 100) 50, .stopStream]).1.streamingMode =
      false ∧
    (run defaultConfig initCapture
        [.startStream, .tick (mkRat 5 100) 50, .stopStream]).1.pendingStops = 1 ∧
    (run defaultConfig initCapture
        [.startStream, .tick (mkRat 5 100) 50, .stopStream, .complete]).2 = 1 := by
  decide

theorem quiescent_step (cfg : VadConfig) (t : Capture) (e : Ev)
    (hne : e ≠ Ev.startStream) (hq : postStopQuiescent t) :
    postStopQuiescent (execEvent cfg t e).1 ∧ (execEvent cfg t e).2 = 0 := by
  obtain ⟨h1, h2, h3, h4⟩ := hq
  cases e with
  | tick rms now =>
      simp only [execEvent, vadLoop_guard cfg rms now t (Or.inl h1)]
      exact ⟨⟨h1, h2, h3, h4⟩, trivial⟩
  | complete => simp [execEvent, h4, postStopQuiescent, h1, h2, h3]
  | errorEvent => exact ⟨⟨h1, h2, h3, h4⟩, rfl⟩
  | sendCut => simp [execEvent, sendCurrentChunk, h3, postStopQuiescent, h1, h2, h4]
  | discardCut =>
      simp [execEvent, discardCurrentChunk, h3, postStopQuiescent, h1, h2, h4]
  | startStream => exact absurd rfl hne
  | stopStream =>
      cases hv : t.vadIntervalSet <;>
        simp [execEvent, stopStreamingMode, stopRecording, hv, h1, h2, h3, h4,
          postStopQuiescent]

theorem quiescent_run (cfg : VadConfig) (t : Capture) (evs : List Ev)
    (hne : ∀ e ∈ evs, e ≠ Ev.startStream) (hq : postStopQuiescent t) :
    (run cfg t evs).2 = 0 ∧ postStopQuiescent (run cfg t evs).1 := by
  induction evs generalizing t with
  | nil => exact ⟨rfl, hq⟩
  | cons e es ih =>
      have hstep := quiescent_step cfg t e (hne e (List.mem_cons_self e es)) hq
      have hrest := ih (execEvent cfg t e).1
        (fun x hx => hne x (List.mem_cons_of_mem e hx)) hstep.1
      simp only [run]
      exact ⟨by rw [hstep.2, hrest.1], hrest.2⟩

/-- C2 (amended): `stopStreamingMode` cancels the timer and stops an
in-progress recording, but neither raises the suppression flag nor clears the
callback, so the one completion event it queues is still delivered to the
segment callback after stop; only once the queue is drained (and as long as no
new session starts) are no further callbacks possible. -/
theorem stopStreamingMode_behavior (cfg : VadConfig) :
    (∀ s : Capture,
      (stopStreamingMode s).streamingMode = false ∧
      (stopStreamingMode s).suppressNextBlob = s.suppressNextBlob ∧
      (stopStreamingMode s).processCallbackSet = s.processCallbackSet ∧
      (s.recorderPresent = true → s.recorderRecording = true →
        (stopStreamingMode s).pendingStops = s.pendingStops + 1)) ∧
    (∀ (s : Capture) (evs : List Ev), postStopQuiescent s →
      (∀ e ∈ evs, e ≠ Ev.startStream) →
      (run cfg s evs).2 = 0 ∧ postStopQuiescent (run cfg s evs).1) := by
  constructor
  · intro s
    refine ⟨(stopStreamingMode_fields s).1, (stopStreamingMode_fields s).2.2.2.1,
      (stopStreamingMode_fields s).2.2.2.2.1, ?_⟩
    intro hp hr
    cases hv : s.vadIntervalSet <;> cases hap : s.analyserPresent <;>
      simp [stopStreamingMode, stopRecording, hv, hap, hp, hr]
  · intro s evs hq hne
    exact quiescent_run cfg s evs hne hq

theorem stopStreamingMode_behavior_witness :
    (postStopQuiescent (stopStreamingMode (startStreamingMode initCapture)) ∧
      (∀ e ∈ [Ev.tick (mkRat 5 100) 99950, Ev.complete, Ev.stopStream],
        e ≠ Ev.startStream)) ∧
    (run defaultConfig (stopStreamingMode (startStreamingMode initCapture))
        [Ev.tick (mkRat 5 100) 99950, Ev.complete, Ev.stopStream]).2 = 0 :=
  ⟨⟨by decide, by decide⟩,
   ((stopStreamingMode_behavior defaultConfig).2
      (stopStreamingMode (startStreamingMode initCapture))
      [Ev.tick (mkRat 5 100) 99950, Ev.complete, Ev.stopStream]
      (by decide) (by decide)).1⟩

theorem cut_delivery_iff_emit_witness :
    (cutTestState.recorderPresent = true ∧ cutTestState.recorderRecording = true ∧
      cutTestState.processCallbackSet = true ∧
      cutTestState.suppressNextBlob = false) ∧
    ((execEvent defaultConfig (sendCurrentChunk cutTestState) .complete).2 = 1 ∧
      (execEvent defaultConfig (discardCurrentChunk cutTestState) .complete).2 = 0) :=
  ⟨⟨rfl, rfl, rfl, rfl⟩,
   ⟨(cut_delivery_iff_emit defaultConfig cutTestState rfl rfl rfl rfl).2.1,
    (cut_delivery_iff_emit defaultConfig cutTestState rfl rfl rfl rfl).2.2.2.2.2.2.1⟩⟩

theorem discard_sets_suppress (s : Capture) :
    (discardCurrentChunk s).suppressNextBlob = true := by
  simp only [discardCurrentChunk]
  split <;> rfl

theorem complete_suppressed (cfg : VadConfig) (u : Capture)
    (hu : u.suppressNextBlob = true) :
    (execEvent cfg u .complete).2 = 0 := by
  simp only [execEvent]
  split
  · rfl
  · simp [onstop, hu]

set_option maxRecDepth 20000

/-- C3: at the tick where trailing silence reaches `TRAILING_SILENCE_MS`, the
segment is emitted iff `now − recordingStartTime ≥ MIN_CHUNK_DURATION_MS` and
discarded (never delivered) otherwise; the elapsed time measured includes the
trailing-silence wait itself, as scenario B shows: one speech tick followed by
the full trailing window cuts at elapsed 1550 ms ≥ 500 ms and is emitted. -/
theorem trailing_cut_min_duration (cfg : VadConfig) (s : Capture) (rms : ℚ)
    (now t r : ℤ)
    (hs : s.streamingMode = true) (ha : s.analyserPresent = true)
    (hv : s.voiceState = .TRAILING_SILENCE)
    (hsil : s.silenceStartTime = some t) (hrec : s.recordingStartTime = some r)
    (hq : rms < cfg.SILENCE_THRESHOLD)
    (hw : cfg.TRAILING_SILENCE_MS ≤ now - t) :
    (cfg.MIN_CHUNK_DURATION_MS ≤ now - r →
      vadLoop cfg rms now s = sendCurrentChunk s) ∧
    (now - r < cfg.MIN_CHUNK_DURATION_MS →
      vadLoop cfg rms now s = discardCurrentChunk s ∧
      (execEvent cfg (vadLoop cfg rms now s) .complete).2 = 0) ∧
    ((run defaultConfig initCapture (scenarioBTrace 31)).1.voiceState =
        .TRAILING_SILENCE ∧
      (run defaultConfig initCapture (scenarioBTrace 31)).1.recordingStartTime =
        some 50 ∧
      (run defaultConfig initCapture (scenarioBTrace 31)).1.silenceStartTime =
        some 100 ∧
      (run defaultConfig initCapture (scenarioBTrace 32)).1.voiceState =
        .SILENT ∧
      (run defaultConfig initCapture (scenarioBTrace 32)).1.suppressNextBlob =
        false ∧
      (run defaultConfig initCapture (scenarioBTrace 32 ++ [Ev.complete])).2 =
        1) := by
  have hsp : ¬ (cfg.SILENCE_THRESHOLD ≤ rms) := not_le.mpr hq
  refine ⟨?_, ?_, by decide⟩
  · intro hmin
    simp [vadLoop, hs, ha, hv, hsil, hrec, jsVal, hsp, hw, hmin]
  · intro hmin
    have hvl : vadLoop cfg rms now s = discardCurrentChunk s := by
      simp [vadLoop, hs, ha, hv, hsil, hrec, jsVal, hsp, hw, not_le.mpr hmin]
    exact ⟨hvl, by
      rw [hvl]
      exact complete_suppressed cfg _ (discard_sets_suppress s)⟩

theorem trailing_cut_min_duration_witness :
    (trailTestState.streamingMode = true ∧ trailTestState.analyserPresent = true ∧
      trailTestState.voiceState = .TRAILING_SILENCE ∧
      trailTestState.silenceStartTime = some 350 ∧
      trailTestState.recordingStartTime = some 200 ∧
      (0 : ℚ) < defaultConfig.SILENCE_THRESHOLD ∧
      defaultConfig.TRAILING_SILENCE_MS ≤ (1850 : ℤ) - 350 ∧
      defaultConfig.MIN_CHUNK_DURATION_MS ≤ (1850 : ℤ) - 200) ∧
    vadLoop defaultConfig 0 1850 trailTestState = sendCurrentChunk trailTestState :=
  ⟨⟨rfl, rfl, rfl, rfl, rfl, by decide, by decide, by decide⟩,
   (trailing_cut_min_duration defaultConfig trailTestState 0 1850 350 200
      rfl rfl rfl rfl rfl (by decide) (by decide)).1 (by decide)⟩

/-- C6: on scenario A (silence ticks 1-3, speech ticks 4-6, silence after,
tick `n` at `n*50` ms, default thresholds) the machine starts recording at
tick 4 (`recordingStartTime = 200`), enters trailing silence at tick 7
(`silenceStartTime = 350`), is still waiting at tick 36, cuts at tick 37
(t = 1850 ms), and the cut is an emit (no suppression; the completion invokes
the callback once). -/
theorem scenarioA_emits :
    (run defaultConfig initCapture (scenarioATrace 3)).1.voiceState = .SILENT ∧
    (run defaultConfig initCapture (scenarioATrace 4)).1.voiceState = .SPEAKING ∧
    (run defaultConfig initCapture (scenarioATrace 4)).1.recordingStartTime =
      some 200 ∧
    (run defaultConfig initCapture (scenarioATrace 7)).1.voiceState =
      .TRAILING_SILENCE ∧
    (run defaultConfig initCapture (scenarioATrace 7)).1.silenceStartTime =
      some 350 ∧
    (run defaultConfig initCapture (scenarioATrace 36)).1.voiceState =
      .TRAILING_SILENCE ∧
    (run defaultConfig initCapture (scenarioATrace 37)).1.voiceState = .SILENT ∧
    (run defaultConfig initCapture (scenarioATrace 37)).1.suppressNextBlob =
      false ∧
    (run defaultConfig initCapture (scenarioATrace 37)).1.pendingStops = 1 ∧
    (run defaultConfig initCapture (scenarioATrace 37 ++ [Ev.complete])).2 = 1 := by
  decide

theorem altTrace_succ (n : ℕ) :
    altTrace (n + 1) =
      altTrace n ++ [Ev.tick (altRms (n + 1)) (((n : ℤ) + 1) * 50)] := by
  simp [altTrace, List.range_succ]

theorem alt_tick_silence (t u : ℤ) :
    vadLoop defaultConfig 0 u altSpeakState =
      { altSpeakState with voiceState := .TRAILING_SILENCE,
                           silenceStartTime := some u } ∧
    vadLoop defaultConfig (mkRat 5 100) u
        { altSpeakState with voiceState := .TRAILING_SILENCE,
                             silenceStartTime := some t } =
      altSpeakState :=
  ⟨rfl, rfl⟩

theorem alt_periodic (k : ℕ) :
    run defaultConfig initCapture (altTrace (2 * k + 1)) = (altSpeakState, 0) := by
  induction k with
  | zero => decide
  | succ n ih =>
      have h1 : 2 * (n + 1) + 1 = 2 * n + 1 + 1 + 1 := by ring
      have e1 : altRms (2 * n + 1 + 1) = 0 := by
        have h2 : ¬ ((2 * n + 1 + 1) % 2 = 1) := by omega
        simp [altRms, h2]
      have e2 : altRms (2 * n + 1 + 1 + 1) = mkRat 5 100 := by
        have h2 : (2 * n + 1 + 1 + 1) % 2 = 1 := by omega
        simp [altRms, h2]
      rw [h1, altTrace_succ, altTrace_succ, run_append, run_append, ih]
      simp [run, execEvent, e1, e2]
      rw [(alt_tick_silence 0 _).1, (alt_tick_silence _ _).2]

/-- C4 counterexample: with the source constants (max 15000 ms, poll 50 ms)
and loudness alternating between speech (odd ticks) and silence (even ticks),
after 303 ticks a recording opened at t = 50 ms is still in progress and no
cut has occurred: its elapsed duration 303*50 − 50 = 15100 ms exceeds
`MAX_CHUNK_DURATION_MS + VAD_POLL_INTERVAL_MS` = 15050 ms. -/
theorem alternating_trace_exceeds_max :
    (run defaultConfig initCapture (altTrace 303)).1.voiceState = .SPEAKING ∧
    (run defaultConfig initCapture (altTrace 303)).1.recorderRecording = true ∧
    (run defaultConfig initCapture (altTrace 303)).1.recordingStartTime =
      some 50 ∧
    (run defaultConfig initCapture (altTrace 303)).2 = 0 ∧
    defaultConfig.MAX_CHUNK_DURATION_MS + defaultConfig.VAD_POLL_INTERVAL_MS <
      (303 : ℤ) * 50 - 50 := by
  have h3 : 2 * 151 + 1 = 303 := by norm_num
  have h := alt_periodic 151
  rw [h3] at h
  rw [h]
  exact ⟨rfl, rfl, rfl, rfl, by decide⟩

/-- C4 (amended): the max-duration cut fires at a tick only when the tick's
speech classification matches the state — in `SPEAKING` with speech still
present, or in `TRAILING_SILENCE` with silence before the trailing window
completes — and on such ticks reaching `MAX_CHUNK_DURATION_MS` forces an emit.
On mismatched ticks (`SPEAKING` hearing silence, `TRAILING_SILENCE` hearing
speech) no max check runs, so the claimed global bound
`maxSegmentDurationMs + pollIntervalMs` on active-recording duration fails. -/
theorem max_duration_cut_conditions (cfg : VadConfig) (s : Capture) (rms : ℚ)
    (now t r : ℤ)
    (hs : s.streamingMode = true) (ha : s.analyserPresent = true)
    (hrec : s.recordingStartTime = some r) (hr0 : r ≠ 0)
    (hmax : cfg.MAX_CHUNK_DURATION_MS ≤ now - r) :
    (s.voiceState = .SPEAKING → cfg.SILENCE_THRESHOLD ≤ rms →
      vadLoop cfg rms now s = sendCurrentChunk s) ∧
    (s.voiceState = .TRAILING_SILENCE → rms < cfg.SILENCE_THRESHOLD →
      s.silenceStartTime = some t → now - t < cfg.TRAILING_SILENCE_MS →
      vadLoop cfg rms now s = sendCurrentChunk s) := by
  constructor
  · intro hv hsp
    simp [vadLoop, hs, ha, hv, hrec, hsp, truthyTime, hr0, jsVal, hmax]
  · intro hv hq hsil hwin
    simp [vadLoop, hs, ha, hv, hrec, not_le.mpr hq, hsil, jsVal,
      not_le.mpr hwin, truthyTime, hr0, hmax]

theorem max_duration_cut_conditions_witness :
    (cutTestState.streamingMode = true ∧ cutTestState.analyserPresent = true ∧
      cutTestState.recordingStartTime = some 200 ∧ (200 : ℤ) ≠ 0 ∧
      defaultConfig.MAX_CHUNK_DURATION_MS ≤ (15250 : ℤ) - 200 ∧
      cutTestState.voiceState = .SPEAKING ∧
      defaultConfig.SILENCE_THRESHOLD ≤ mkRat 5 100) ∧
    vadLoop defaultConfig (mkRat 5 100) 15250 cutTestState =
      sendCurrentChunk cutTestState :=
  ⟨⟨rfl, rfl, rfl, by decide, by decide, rfl, by decide⟩,
   (max_duration_cut_conditions defaultConfig cutTestState (mkRat 5 100)
      15250 0 200 rfl rfl rfl (by decide) (by decide)).1 rfl (by decide)⟩

/-- C8: the amplitude sampler returns the root mean square of the buffer —
nonnegative, and squaring it recovers the mean of the squared samples — and a
poll tick classifies the moment as speech exactly when the sampled RMS is at
least the configured silence threshold: from `SILENT`, the tick advances to
`SPEAKING` iff `rms ≥ SILENCE_THRESHOLD`. -/
theorem rms_and_speech_classification :
    (∀ buf : List ℝ, 0 ≤ getCurrentRMS buf) ∧
    (∀ buf : List ℝ,
      (getCurrentRMS buf) ^ 2 =
        ((buf.map fun x => x * x).sum) / (buf.length : ℝ)) ∧
    (∀ (cfg : VadConfig) (rms : ℚ) (now : ℤ),
      (vadLoop cfg rms now (startStreamingMode initCapture)).voiceState =
          .SPEAKING ↔
        cfg.SILENCE_THRESHOLD ≤ rms) := by
  refine ⟨fun buf => Real.sqrt_nonneg _, fun buf => ?_, fun cfg rms now => ?_⟩
  · apply Real.sq_sqrt
    apply div_nonneg
    · apply List.sum_nonneg
      intro y hy
      obtain ⟨x, hx, rfl⟩ := List.mem_map.mp hy
      exact mul_self_nonneg x
    · exact Nat.cast_nonneg _
  · by_cases h : cfg.SILENCE_THRESHOLD ≤ rms <;>
      simp [vadLoop, startStreamingMode, initCapture, startRecording, h]

theorem startRecording_voiceState (t : Capture) :
    (startRecording t).voiceState = t.voiceState := by
  unfold startRecording; split <;> rfl

theorem startRecording_silence (t : Capture) :
    (startRecording t).silenceStartTime = t.silenceStartTime := by
  unfold startRecording; split <;> rfl

theorem onstop_frame (t : Capture) :
    (onstop t).1.voiceState = t.voiceState ∧
    (onstop t).1.silenceStartTime = t.silenceStartTime ∧
    (onstop t).1.recordingStartTime = t.recordingStartTime := by
  unfold onstop
  repeat' split
  all_goals exact ⟨rfl, rfl, rfl⟩

theorem timesInv_sendCurrentChunk (s : Capture) :
    timesInv (sendCurrentChunk s) := by
  constructor <;> simp [sendCurrentChunk]

theorem timesInv_discardCurrentChunk (s : Capture) :
    timesInv (discardCurrentChunk s) := by
  constructor <;> simp [discardCurrentChunk]

theorem timesInv_vadLoop (cfg : VadConfig) (rms : ℚ) (now : ℤ) (s : Capture)
    (h : timesInv s) : timesInv (vadLoop cfg rms now s) := by
  obtain ⟨h1, h2⟩ := h
  unfold vadLoop
  split
  · exact ⟨h1, h2⟩
  rcases hv : s.voiceState with _ | _ | _ <;> simp only [hv]
  · -- SILENT
    have hsil : s.silenceStartTime = none := by
      rcases hs' : s.silenceStartTime with _ | x
      · rfl
      · exact absurd (h1.mp (by simp [hs'])) (by simp [hv])
    split
    · constructor
      · simp [startRecording_silence, startRecording_voiceState, hsil]
      · intro _
        simp
    · exact ⟨h1, h2⟩
  · -- SPEAKING
    have hrec : s.recordingStartTime ≠ none := h2 (by simp [hv])
    have hsil : s.silenceStartTime = none := by
      rcases hs' : s.silenceStartTime with _ | x
      · rfl
      · exact absurd (h1.mp (by simp [hs'])) (by simp [hv])
    split
    · exact ⟨by simp, fun _ => hrec⟩
    split
    · exact timesInv_sendCurrentChunk s
    · exact ⟨h1, h2⟩
  · -- TRAILING_SILENCE
    have hrec : s.recordingStartTime ≠ none := h2 (by simp [hv])
    split
    · exact ⟨by simp [hv], fun _ => hrec⟩
    split
    · split
      · exact timesInv_sendCurrentChunk s
      · exact timesInv_discardCurrentChunk s
    split
    · exact timesInv_sendCurrentChunk s
    · exact ⟨h1, h2⟩

theorem timesInv_execEvent (cfg : VadConfig) (s : Capture) (e : Ev)
    (h : timesInv s) : timesInv (execEvent cfg s e).1 := by
  cases e with
  | tick rms now => exact timesInv_vadLoop cfg rms now s h
  | complete =>
      by_cases h0 : s.pendingStops = 0
      · simpa [execEvent, h0] using h
      · obtain ⟨h1, h2⟩ := h
        simp only [execEvent, if_neg h0]
        constructor
        · simpa [(onstop_frame s).1, (onstop_frame s).2.1] using h1
        · intro hne
          rw [(onstop_frame s).1] at hne
          simpa [(onstop_frame s).2.2] using h2 hne
  | errorEvent => exact h
  | sendCut => exact timesInv_sendCurrentChunk s
  | discardCut => exact timesInv_discardCurrentChunk s
  | startStream =>
      constructor <;> simp [execEvent, startStreamingMode]
  | stopStream =>
      constructor
      · simp [execEvent, (stopStreamingMode_fields s).2.2.2.2.2.1,
          (stopStreamingMode_fields s).2.2.2.2.2.2.1]
      · intro hne
        exact absurd (stopStreamingMode_fields s).2.2.2.2.2.1 hne

/-- C9: in every state reachable from the initialized capture through any
event sequence (session start/stop, poll ticks, cuts, completions, errors),
`silenceStartTime` is set exactly when the voice state is `TRAILING_SILENCE`,
and `recordingStartTime` is set whenever the voice state is not `SILENT`. -/
theorem timestamps_track_voice_state (cfg : VadConfig) (evs : List Ev) :
    timesInv (run cfg initCapture evs).1 := by
  have hgen : ∀ (l : List Ev) (s : Capture), timesInv s → timesInv (run cfg s l).1 := by
    intro l
    induction l with
    | nil => intro s hs; exact hs
    | cons e es ih =>
        intro s hs
        simp only [run]
        exact ih _ (timesInv_execEvent cfg s e hs)
  exact hgen evs initCapture (by constructor <;> simp [initCapture])

end PagePuppet
